import Mathlib

/-!
Shallow embedding of the ForgeRock `oidcSessionCheck` library.

Source files modelled:
- `src/sessionCheck.js` — the SessionCheck module: constructor (mode selection and
  config validation), `triggerSessionCheck` (cooldown gate + dispatcher),
  the window `message` listener, the TrustedToken `validationHandler`, and `destroy`.
- `src/unnamed/part_003` (first file: the `sessionCheckFrame` response-verifier IIFE)
  — the code running inside the hidden iframe at the redirect_uri, which parses the
  authorization response, checks nonce/subject against the sessionStorage ledger and
  posts a classification message to the parent.

Modelling conventions:
- JavaScript string values that may be `undefined` are `Option String`; JS truthiness
  of such a value is `truthyOpt` (`undefined` and `""` are falsy).
- `jsStr` models JS string coercion in concatenation (`undefined` prints "undefined").
- Machine time is `Nat` milliseconds (`(new Date()).getTime()`).
- `JSON.parse(sessionStorage.getItem(k))` yields `none` when the key is absent
  (`JSON.parse(null)` evaluates to `null`); indexing into that `null` throws a
  TypeError, modelled as the `FrameOutcome.crashed` outcome. Likewise a
  validation response text that parses to JSON `null` makes the later `valid`
  property access throw, modelled as `ValidationOutcome.crashed`.
- Caller-supplied handlers are modelled by presence flags in `Config`; an execution's
  externally visible effect is the list of `HandlerCall`s it makes.
- The id_token's claims segment decoding (`getIdTokenClaims`, a base64url + JSON
  decode of the JOSE compact serialization) is taken at its boundary: a response
  parameter set carries the decoded claim record directly.
-/

/-- JS truthiness of a possibly-undefined string: `undefined` and `""` are falsy. -/
def truthyOpt (o : Option String) : Bool :=
  match o with
  | none => false
  | some s => s != ""

/-- JS string coercion of a possibly-undefined string (as in `"a" + undefined`). -/
def jsStr (o : Option String) : String :=
  match o with
  | none => "undefined"
  | some s => s

/-- Decoded claims of an id_token (`getIdTokenClaims` output): the `sub` and `nonce`
claims the verifier inspects (`nonce` after the `Number(...)` coercion at the
comparison site), plus the remaining claim entries, carried so that "the full claim
set" is a meaningful notion for the success message. -/
structure IdClaims where
  sub : String
  nonce : Int
  rest : List (String × String) := []
deriving DecidableEq, Repr

/-- A relay message posted by the sessionCheckFrame verifier to the parent
(`parent.postMessage({message, reason|claims, authId?}, document.location.origin)`).
The error branch of `src/unnamed/part_003` posts a failure without any `authId`
field, hence `authId : Option String`. -/
inductive RelayMsg
  | failed (reason : String) (authId : Option String)
  | succeeded (claims : Option IdClaims) (authId : Option String)
deriving DecidableEq, Repr

/-- The `authId` field of a relay message (`e.data.authId`), absent on the
verifier's error-branch failures. -/
def RelayMsg.authIdField : RelayMsg → Option String
  | .failed _ a => a
  | .succeeded _ a => a

/-- Outcome of running the sessionCheckFrame verifier on one response:
either a message posted to the parent, or an uncaught TypeError (indexing into
the `null` produced by `JSON.parse(sessionStorage.getItem(...))` when the
storage key is entirely absent). -/
inductive FrameOutcome
  | posted (msg : RelayMsg)
  | crashed
deriving DecidableEq, Repr

/-- The response parameter set the verifier works from: the result of reducing the
hash-fragment/query entries into a map (`src/unnamed/part_003` lines 44-54), with
the id_token parameter already decoded to its claim record. `state` is the `state`
parameter echoed by the OP (the dispatching instance's `authId`/checkId). -/
structure ResponseParams where
  state : String
  id_token : Option IdClaims := none
  error : Option String := none
deriving DecidableEq, Repr

/-- The subject-mismatch test of the verifier:
`subjectMap[response_params.state] && new_claims.sub !== subjectMap[response_params.state]`.
A recorded empty string is falsy in JS, so it never trips the check. -/
def recordedSubjectMismatch (sub : String) (recorded : Option String) : Bool :=
  match recorded with
  | none => false
  | some s => s != "" && sub != s

/-- The sessionCheckFrame response verifier (`src/unnamed/part_003` lines 57-96),
given the parsed contents of the two sessionStorage ledger keys.
`nonceStore` models `JSON.parse(sessionStorage.getItem("sessionCheckNonce"))`
(a map from state/checkId to the nonce recorded at dispatch; `none` when the
storage key is absent, in which case the JS code throws on `nonceMap[state]`),
and `subjectStore` likewise models the `"sessionCheckSubject"` map. -/
def frameVerify (nonceStore : Option (List (String × Int)))
    (subjectStore : Option (List (String × String)))
    (p : ResponseParams) : FrameOutcome :=
  match p.id_token with
  | some c =>
    match nonceStore with
    | none => .crashed
    | some nm =>
      if nm.lookup p.state ≠ some c.nonce then
        .posted (.failed "nonce_mismatch" (some p.state))
      else
        match subjectStore with
        | none => .crashed
        | some sm =>
          if recordedSubjectMismatch c.sub (sm.lookup p.state) then
            .posted (.failed "subject_mismatch" (some p.state))
          else
            .posted (.succeeded (some c) (some p.state))
  | none =>
    match p.error with
    | some e =>
      if e ≠ "" then
        .posted (.failed e none)
      else
        .posted (.succeeded none (some p.state))
    | none =>
      .posted (.succeeded none (some p.state))

/-- Construction configuration (`config` object of `src/sessionCheck.js`).
Handler fields are modelled by presence flags; their behaviour is external. -/
structure Config where
  subject : Option String := none
  cooldownPeriod : Option Nat := none
  ssoToken : Option String := none
  ssoTokenName : Option String := none
  amUrl : Option String := none
  opUrl : Option String := none
  responseType : Option String := none
  clientId : Option String := none
  authId : Option String := none
  idToken : Option String := none
  redirectUri : Option String := none
  scope : Option String := none
  hasInvalidSessionHandler : Bool := true
  hasSessionClaimsHandler : Bool := false
  hasInitialSessionSuccessHandler : Bool := false
deriving DecidableEq, Repr

/-- A constructed SessionCheck instance (the `this` object of the module).
TrustedToken-mode instances have `ssoToken` set and no iframe/listener;
StandardsBased instances have `iframe` and `listenerRegistered` true until
`destroy` nulls them. -/
structure Instance where
  request_check_count : Nat := 0
  cooldownPeriod : Nat := 5
  subject : Option String := none
  checkSessionTimestamp : Option Nat := none
  ssoToken : Option String := none
  ssoTokenName : Option String := none
  amUrl : Option String := none
  redirectUri : Option String := none
  idToken : Option String := none
  clientId : Option String := none
  authId : Option String := none
  opUrl : Option String := none
  responseType : Option String := none
  scope : Option String := none
  iframe : Bool := false
  listenerRegistered : Bool := false
deriving DecidableEq, Repr

/-- Model of `config.cooldownPeriod || 5` — any falsy supplied value (absent, or 0) yields
the 5-second default. -/
def defaultedCooldown (c : Option Nat) : Nat :=
  match c with
  | none => 5
  | some n => if n = 0 then 5 else n

/-- The DOM-resolved absolute form of the relative page name "sessionCheck.html"
(the anchor-element trick of `src/sessionCheck.js` lines 63-68); the resolution
itself is browser state, so the model keeps the page name. -/
def calculatedRedirectUri : String := "sessionCheck.html"

/-- Model of `this.responseType = config.responseType || "id_token"` — the effective
response type of a standards-based instance. -/
def standardsResponseType (cfg : Config) : String :=
  if truthyOpt cfg.responseType then jsStr cfg.responseType else "id_token"

/-- The SessionCheck constructor (`module.exports`, `src/sessionCheck.js` lines
31-122). Presence of a truthy `ssoToken` selects TrustedToken mode; otherwise the
standards-based branch validates `responseType`/`idToken` and throws (modelled as
`Except.error` with the thrown message, apostrophes elided) when `responseType` is
"none" without an idToken. DOM side effects (iframe creation, listener
registration, sessionStorage subject write) are reflected in the instance flags. -/
def construct (cfg : Config) : Except String Instance :=
  if truthyOpt cfg.ssoToken then
    .ok { request_check_count := 0
          cooldownPeriod := defaultedCooldown cfg.cooldownPeriod
          subject := cfg.subject
          ssoToken := cfg.ssoToken
          ssoTokenName := some (if truthyOpt cfg.ssoTokenName then jsStr cfg.ssoTokenName else "iPlanetDirectoryPro")
          amUrl := some (jsStr cfg.amUrl ++ "/sessions?_action=validate") }
  else
    if standardsResponseType cfg = "none" ∧ truthyOpt cfg.idToken = false then
      .error "When using the none response type, you must supply an idToken value to use as a hint when calling the OP."
    else
      .ok { request_check_count := 0
            cooldownPeriod := defaultedCooldown cfg.cooldownPeriod
            subject := cfg.subject
            redirectUri := some (if truthyOpt cfg.redirectUri then jsStr cfg.redirectUri else calculatedRedirectUri)
            idToken := cfg.idToken
            clientId := cfg.clientId
            authId := some (if truthyOpt cfg.authId then jsStr cfg.authId else "Primary")
            opUrl := cfg.opUrl
            responseType := some (standardsResponseType cfg)
            scope := if standardsResponseType cfg = "id_token" then some (if truthyOpt cfg.scope then jsStr cfg.scope else "openid") else none
            iframe := true
            listenerRegistered := true }

/-- An invocation of a caller-supplied handler — the module's only externally
visible effect. -/
inductive HandlerCall
  | invalidSession (reason : String) (count : Nat)
  | sessionClaims (claims : IdClaims) (count : Nat)
  | initialSuccess
deriving DecidableEq, Repr

/-- A DOM `message` event as seen by the parent listener: sender origin plus the
relayed data record. -/
structure MessageEvent where
  origin : String
  data : RelayMsg
deriving DecidableEq, Repr

/-- The instance's window `message` listener (`eventListenerHandle`,
`src/sessionCheck.js` lines 94-113): messages carrying a truthy `authId` different
from this instance's are dropped, then the sender origin must equal the page's own
origin; a `sessionCheckFailed` message invokes the invalid-session handler with
`(reason, request_check_count)`; a `sessionCheckSucceeded` message invokes the
claims handler when claims are carried, and the initial-success handler when
`request_check_count === 1`. -/
def eventListenerBody (cfg : Config) (inst : Instance) (pageOrigin : String)
    (e : MessageEvent) : List HandlerCall :=
  if e.origin ≠ pageOrigin then [] else
    match e.data with
    | .failed reason _ =>
      if cfg.hasInvalidSessionHandler then [.invalidSession reason inst.request_check_count] else []
    | .succeeded claimsOpt _ =>
      (match claimsOpt with
       | some c => if cfg.hasSessionClaimsHandler then [.sessionClaims c inst.request_check_count] else []
       | none => []) ++
      (if cfg.hasInitialSessionSuccessHandler ∧ inst.request_check_count = 1 then [.initialSuccess] else [])

/-- The leading checkId filter of the listener
(`if (e.data.authId && e.data.authId !== this.authId) return;`), falling through to
the origin check and message dispatch of `eventListenerBody`. -/
def eventListenerHandle (cfg : Config) (inst : Instance) (pageOrigin : String)
    (e : MessageEvent) : List HandlerCall :=
  match e.data.authIdField with
  | some a =>
    if a ≠ "" ∧ inst.authId ≠ some a then [] else
      eventListenerBody cfg inst pageOrigin e
  | none => eventListenerBody cfg inst pageOrigin e

/-- Delivery of a window `message` event to the instance: the listener runs only
while its registration is in place (`window.addEventListener` at construction,
`removeEventListener` in `destroy`). -/
def deliverMessage (cfg : Config) (inst : Instance) (pageOrigin : String)
    (e : MessageEvent) : List HandlerCall :=
  if inst.listenerRegistered then eventListenerHandle cfg inst pageOrigin e else []

/-- Result of `JSON.parse` on the TrustedToken validation response text: the
thrown SyntaxError message; the parsed JSON `null` (response text "null" — the
one successfully parsed value whose later property access throws); or any other
parsed value, whose `valid` property access has the given truthiness and whose
`uid` property is the given possibly-absent string (on parsed primitives both
accesses yield `undefined`, so `valid` is false and `uid` is absent). -/
inductive ValidationParse
  | err (msg : String)
  | nullParsed
  | ok (valid : Bool) (uid : Option String)
deriving DecidableEq, Repr

/-- Outcome of running the XHR `load` listener on one validation response: the
handler invocations it makes, or an uncaught TypeError — the `try` in the source
wraps only `JSON.parse` (`src/sessionCheck.js` lines 43-48), so when the text
parses to `null` the `validationResponse.valid` access at line 49 throws before
any handler can run. -/
inductive ValidationOutcome
  | handled (calls : List HandlerCall)
  | crashed
deriving DecidableEq, Repr

/-- The handler invocations an outcome performs: an uncaught TypeError aborts the
listener before any handler call, so a crash performs none (the page itself
continues). -/
def ValidationOutcome.calls : ValidationOutcome → List HandlerCall
  | .handled cs => cs
  | .crashed => []

/-- The TrustedToken `validationHandler` (`src/sessionCheck.js` lines 42-60), as a
function of the instance state it closes over (`request_check_count`, `subject`)
and of the parse outcome of the raw response text: parse error → failure with the
error message; parsed `null` → uncaught TypeError at the `valid` access, no
handler invoked; `valid` not truthy → failure `invalid_session`; truthy
configured subject differing from `uid` → failure `subject_mismatch`; otherwise
success, invoking the initial-success handler when `request_check_count === 1`. -/
def validationHandler (cfg : Config) (count : Nat) (subject : Option String)
    (r : ValidationParse) : ValidationOutcome :=
  match r with
  | .err m => .handled [.invalidSession m count]
  | .nullParsed => .crashed
  | .ok valid uid =>
    if valid = false then .handled [.invalidSession "invalid_session" count]
    else if truthyOpt subject ∧ uid ≠ subject then .handled [.invalidSession "subject_mismatch" count]
    else .handled (if cfg.hasInitialSessionSuccessHandler ∧ count = 1 then [.initialSuccess] else [])

/-- What a dispatch did: a TrustedToken XHR was sent, the hidden iframe was
navigated to the composed authorization URL, or nothing (destroyed standards
instance — "This session check instance has been destroyed"). -/
inductive DispatchAction
  | xhrSent
  | navigated (url : String)
  | noop
deriving DecidableEq, Repr

/-- The authorization URL composed by `sessionCheckRequest` (`src/sessionCheck.js`
lines 148-166): base endpoint + prompt=none + client_id + response_type +
redirect_uri + state=authId, then `nonce` when response_type is id_token, then
`scope` and `id_token_hint` when truthy. -/
def buildAuthorizationUrl (inst : Instance) (nonce : Nat) : String :=
  let u := jsStr inst.opUrl ++ "?prompt=none" ++ "&client_id=" ++ jsStr inst.clientId
      ++ "&response_type=" ++ jsStr inst.responseType
      ++ "&redirect_uri=" ++ jsStr inst.redirectUri
      ++ "&state=" ++ jsStr inst.authId
  let u := if inst.responseType = some "id_token" then u ++ "&nonce=" ++ toString nonce else u
  let u := if truthyOpt inst.scope then u ++ "&scope=" ++ jsStr inst.scope else u
  if truthyOpt inst.idToken then u ++ "&id_token_hint=" ++ jsStr inst.idToken else u

/-- The private dispatcher `sessionCheckRequest` (`src/sessionCheck.js` lines
133-171). TrustedToken mode always sends the XHR (there is no destroyed-instance
guard on that branch); the standards branch is a no-op when the iframe handle has
been nulled by `destroy`, and otherwise navigates the iframe. `nonce` is the value
`Math.floor(Math.random() * 100000)` drawn at this dispatch (also written to the
frame-side nonce ledger, which `frameVerify` receives as its store argument). -/
def sessionCheckRequest (inst : Instance) (nonce : Nat) : DispatchAction :=
  if truthyOpt inst.ssoToken then .xhrSent
  else if inst.iframe = false then .noop
  else .navigated (buildAuthorizationUrl inst nonce)

/-- The cooldown gate's acceptance test (`sessionCheckRequestCooldown`,
`src/sessionCheck.js` line 181): `!this.checkSessionTimestamp ||
this.checkSessionTimestamp + this.cooldownPeriod * 1000 < timestamp`.
A recorded timestamp of 0 is falsy in JS, hence the explicit `t == 0` disjunct. -/
def triggerAccepts (inst : Instance) (now : Nat) : Bool :=
  match inst.checkSessionTimestamp with
  | none => true
  | some t => decide (t = 0 ∨ t + inst.cooldownPeriod * 1000 < now)

/-- The operation `triggerSessionCheck` (`src/sessionCheck.js` lines 177-189) at wall-clock time
`now`: when the gate accepts, it records the timestamp, increments
`request_check_count`, and calls the dispatcher (whose action is returned);
otherwise the call is silently dropped (`none`, state unchanged). -/
def triggerSessionCheck (inst : Instance) (now : Nat) (nonce : Nat) :
    Instance × Option DispatchAction :=
  if triggerAccepts inst now then
    let inst' := { inst with checkSessionTimestamp := some now,
                             request_check_count := inst.request_check_count + 1 }
    (inst', some (sessionCheckRequest inst' nonce))
  else
    (inst, none)

/-- The operation `destroy` (`src/sessionCheck.js` lines 213-222): removes the iframe from the
document, removes the message-listener registration and nulls both handles; it
also removes the instance's sessionStorage ledger keys (frame-side state, modelled
at `frameVerify`'s store arguments). Counter and timestamp are not reset. Every
statement of the JS body is non-throwing on an already-destroyed instance
(`removeEventListener` with a null listener is a no-op), so the model is a total
function. -/
def destroy (inst : Instance) : Instance :=
  { inst with iframe := false, listenerRegistered := false }

/-- Page-level state for a TrustedToken instance: the instance, the number of
validation XHRs dispatched but not yet completed (each with its `load` listener
attached), and the handler calls made so far. -/
structure SsoWorld where
  inst : Instance
  pendingXhrs : Nat := 0
  calls : List HandlerCall := []
deriving DecidableEq, Repr

/-- An event at the page hosting a TrustedToken instance. -/
inductive SsoEvent
  | trigger (now : Nat)
  | destroyCall
  | xhrLoad (r : ValidationParse)
deriving DecidableEq, Repr

/-- One step of the TrustedToken page: a trigger runs the cooldown gate and, on
acceptance, dispatches a new XHR; `destroy` tears down the instance but neither
aborts in-flight XHRs nor detaches their `load` listeners (the `destroy` body only
touches the iframe, the message listener and sessionStorage); a `load` completion
of a pending XHR runs `validationHandler` on the response with the instance state
read at completion time, appending the handler invocations it performs (an
uncaught TypeError in the listener performs none and the page continues). -/
def ssoStep (cfg : Config) (w : SsoWorld) (ev : SsoEvent) : SsoWorld :=
  match ev with
  | .trigger now =>
    let r := triggerSessionCheck w.inst now 0
    { w with inst := r.1,
             pendingXhrs := w.pendingXhrs + (if r.2 = some .xhrSent then 1 else 0) }
  | .destroyCall => { w with inst := destroy w.inst }
  | .xhrLoad r =>
    if w.pendingXhrs = 0 then w
    else
      { w with pendingXhrs := w.pendingXhrs - 1,
               calls := w.calls
                 ++ (validationHandler cfg w.inst.request_check_count w.inst.subject r).calls }

/-- Run a TrustedToken page through a sequence of events. -/
def ssoRun (cfg : Config) (w0 : SsoWorld) (evs : List SsoEvent) : SsoWorld :=
  evs.foldl (ssoStep cfg) w0

/-- Page-level state for a StandardsBased instance: the instance and the handler
calls made so far. -/
structure StdWorld where
  inst : Instance
  calls : List HandlerCall := []
deriving DecidableEq, Repr

/-- An event at the page hosting a StandardsBased instance. -/
inductive StdEvent
  | trigger (now : Nat) (nonce : Nat)
  | message (e : MessageEvent)
  | destroyCall
deriving DecidableEq, Repr

/-- One step of the StandardsBased page: triggers run the gate/dispatcher, window
`message` events are delivered to the instance's listener (while registered), and
`destroy` tears the instance down. -/
def stdStep (cfg : Config) (pageOrigin : String) (w : StdWorld) (ev : StdEvent) : StdWorld :=
  match ev with
  | .trigger now nonce => { w with inst := (triggerSessionCheck w.inst now nonce).1 }
  | .message e => { w with calls := w.calls ++ deliverMessage cfg w.inst pageOrigin e }
  | .destroyCall => { w with inst := destroy w.inst }

/-- Run a StandardsBased page through a sequence of events. -/
def stdRun (cfg : Config) (pageOrigin : String) (w0 : StdWorld) (evs : List StdEvent) : StdWorld :=
  evs.foldl (stdStep cfg pageOrigin) w0

/-! ## Concrete fixtures used by witnesses and counterexamples -/

/-- A typical standards-based configuration (all three handlers supplied). -/
def cfgStd : Config :=
  { opUrl := some "https://op/authorize", clientId := some "rp-client",
    authId := some "Primary", cooldownPeriod := some 5,
    hasInvalidSessionHandler := true, hasSessionClaimsHandler := true,
    hasInitialSessionSuccessHandler := true }

/-- The instance `construct cfgStd` yields. -/
def stdInst0 : Instance :=
  { cooldownPeriod := 5, clientId := some "rp-client", authId := some "Primary",
    opUrl := some "https://op/authorize", responseType := some "id_token",
    scope := some "openid", redirectUri := some calculatedRedirectUri,
    iframe := true, listenerRegistered := true }

/-- A second standards-based configuration with a distinct checkId. -/
def cfgB : Config :=
  { opUrl := some "https://op/authorize", clientId := some "rp-client",
    authId := some "Secondary", hasInvalidSessionHandler := true }

/-- The instance `construct cfgB` yields. -/
def instB : Instance :=
  { cooldownPeriod := 5, clientId := some "rp-client", authId := some "Secondary",
    opUrl := some "https://op/authorize", responseType := some "id_token",
    scope := some "openid", redirectUri := some calculatedRedirectUri,
    iframe := true, listenerRegistered := true }

/-- A TrustedToken configuration. -/
def cfgSso : Config :=
  { ssoToken := some "tok", amUrl := some "https://am", subject := some "alice",
    hasInvalidSessionHandler := true, hasInitialSessionSuccessHandler := true }

/-- The instance `construct cfgSso` yields. -/
def ssoInst0 : Instance :=
  { cooldownPeriod := 5, subject := some "alice", ssoToken := some "tok",
    ssoTokenName := some "iPlanetDirectoryPro",
    amUrl := some "https://am/sessions?_action=validate" }

/-- The example claim record of the spec (`{sub: "alice", nonce: 42}`). -/
def claimsAlice : IdClaims := { sub := "alice", nonce := 42 }

/-! ## Sanity checks of the fixtures -/

theorem construct_cfgStd : construct cfgStd = .ok stdInst0 := rfl

theorem construct_cfgB : construct cfgB = .ok instB := rfl

theorem construct_cfgSso : construct cfgSso = .ok ssoInst0 := rfl

/-! ## Claims about the Response Verifier -/

/-- Claim C1: for every standards-based response processed by the Response Verifier
that carries an id_token, given the ledger's recorded nonce for the response's
state/checkId (the frame documents the ledger stores as a precondition of response
handling): a claim set whose nonce differs from the recorded nonce is classified as
failure `nonce_mismatch` (never success); otherwise, a recorded expected subject
differing from the claim set's `sub` is classified as failure `subject_mismatch`;
otherwise the verifier classifies success carrying the full claim set. -/
theorem C1_verifier_nonce_subject_classification
    (nm : List (String × Int)) (sm : List (String × String))
    (st : String) (c : IdClaims) (recorded : Int)
    (hrec : nm.lookup st = some recorded) :
    (c.nonce ≠ recorded →
       frameVerify (some nm) (some sm) { state := st, id_token := some c }
         = .posted (.failed "nonce_mismatch" (some st)))
  ∧ (∀ s, c.nonce = recorded → sm.lookup st = some s → s ≠ "" → c.sub ≠ s →
       frameVerify (some nm) (some sm) { state := st, id_token := some c }
         = .posted (.failed "subject_mismatch" (some st)))
  ∧ (c.nonce = recorded → recordedSubjectMismatch c.sub (sm.lookup st) = false →
       frameVerify (some nm) (some sm) { state := st, id_token := some c }
         = .posted (.succeeded (some c) (some st))) := by
  have hshow : ∀ r : FrameOutcome,
      (frameVerify (some nm) (some sm) { state := st, id_token := some c } = r) =
      ((if nm.lookup st ≠ some c.nonce then
          FrameOutcome.posted (.failed "nonce_mismatch" (some st))
        else if recordedSubjectMismatch c.sub (sm.lookup st) then
          FrameOutcome.posted (.failed "subject_mismatch" (some st))
        else
          FrameOutcome.posted (.succeeded (some c) (some st))) = r) :=
    fun _ => rfl
  refine ⟨?_, ?_, ?_⟩
  · intro hne
    rw [hshow, if_pos]
    rw [hrec]
    exact fun h => hne (Option.some.inj h).symm
  · intro s heq hs hse hsub
    rw [hshow, if_neg, if_pos]
    · rw [hs]
      simp [recordedSubjectMismatch, hse, hsub]
    · rw [hrec, heq]
      simp
  · intro heq hmm
    rw [hshow, if_neg, if_neg]
    · rw [hmm]
      simp
    · rw [hrec, heq]
      simp

/-- Witness for C1: the spec's example — ledger nonce 42 and expected subject
"alice" for checkId "Primary", response claims `{sub: "alice", nonce: 42}` —
classifies success carrying the full claim set. -/
theorem C1_verifier_nonce_subject_classification_witness :
    [("Primary", (42 : Int))].lookup "Primary" = some 42
  ∧ frameVerify (some [("Primary", (42 : Int))]) (some [("Primary", "alice")])
      { state := "Primary", id_token := some claimsAlice }
      = .posted (.succeeded (some claimsAlice) (some "Primary")) :=
  ⟨by decide,
   (C1_verifier_nonce_subject_classification [("Primary", 42)] [("Primary", "alice")]
      "Primary" claimsAlice 42 (by decide)).2.2 (by decide) (by decide)⟩

/-- Claim C9: a response carrying an id_token whose state/checkId has no recorded
nonce in the (present) ledger is classified as failure `nonce_mismatch` — the
lookup yields `undefined`, which never strictly equals the numeric nonce — so it is
never accepted as success and the verifier does not crash there. -/
theorem C9_missing_ledger_entry_is_failure
    (nm : List (String × Int)) (subjectStore : Option (List (String × String)))
    (st : String) (c : IdClaims)
    (hmiss : nm.lookup st = none) :
    frameVerify (some nm) subjectStore { state := st, id_token := some c }
      = .posted (.failed "nonce_mismatch" (some st)) := by
  simp [frameVerify, hmiss]

/-- Witness for C9: an empty nonce ledger map (and even a fully absent subject
store) yields the `nonce_mismatch` failure classification. -/
theorem C9_missing_ledger_entry_is_failure_witness :
    ([] : List (String × Int)).lookup "Primary" = none
  ∧ frameVerify (some []) none { state := "Primary", id_token := some claimsAlice }
      = .posted (.failed "nonce_mismatch" (some "Primary")) :=
  ⟨by decide,
   C9_missing_ledger_entry_is_failure [] none "Primary" claimsAlice (by decide)⟩

/-! ## Claims about construction -/

/-- Helper: the fields a successfully constructed instance always has, in either
mode: the counter starts at 0 and the cooldown is the defaulted value. -/
theorem construct_ok_fields (cfg : Config) (inst : Instance)
    (h : construct cfg = .ok inst) :
    inst.request_check_count = 0
  ∧ inst.cooldownPeriod = defaultedCooldown cfg.cooldownPeriod := by
  unfold construct at h
  by_cases h1 : truthyOpt cfg.ssoToken = true
  · rw [if_pos h1] at h
    injection h with h2
    rw [← h2]
    exact ⟨rfl, rfl⟩
  · rw [if_neg h1] at h
    by_cases h2 : standardsResponseType cfg = "none" ∧ truthyOpt cfg.idToken = false
    · rw [if_pos h2] at h
      cases h
    · rw [if_neg h2] at h
      injection h with h3
      rw [← h3]
      exact ⟨rfl, rfl⟩

/-- Claim C5: in the standards-based branch (no truthy ssoToken), constructing
with `responseType = "none"` and no truthy idToken always throws the construction
failure, while constructing with `responseType = "id_token"` and no idToken always
succeeds. -/
theorem C5_construction_none_requires_idtoken (cfg : Config)
    (hsso : truthyOpt cfg.ssoToken = false) :
    (cfg.responseType = some "none" → truthyOpt cfg.idToken = false →
       construct cfg = .error "When using the none response type, you must supply an idToken value to use as a hint when calling the OP.")
  ∧ (cfg.responseType = some "id_token" → cfg.idToken = none →
       ∃ inst, construct cfg = .ok inst) := by
  constructor
  · intro hrt hid
    have hrtv : standardsResponseType cfg = "none" := by
      unfold standardsResponseType
      rw [hrt]
      rfl
    unfold construct
    rw [if_neg (by rw [hsso]; exact Bool.false_ne_true), if_pos ⟨hrtv, hid⟩]
  · intro hrt hid
    have hrtv : standardsResponseType cfg = "id_token" := by
      unfold standardsResponseType
      rw [hrt]
      rfl
    unfold construct
    rw [if_neg (by rw [hsso]; exact Bool.false_ne_true),
        if_neg (by rw [hrtv]; rintro ⟨hc, -⟩; exact absurd hc (by decide))]
    exact ⟨_, rfl⟩

/-- Witness for C5: a config with responseType "none" and no idToken throws; a
config with responseType "id_token" and no idToken constructs. -/
theorem C5_construction_none_requires_idtoken_witness :
    construct { responseType := some "none" }
      = .error "When using the none response type, you must supply an idToken value to use as a hint when calling the OP."
  ∧ ∃ inst, construct { responseType := some "id_token" } = .ok inst :=
  ⟨(C5_construction_none_requires_idtoken { responseType := some "none" } (by decide)).1
      rfl (by decide),
   (C5_construction_none_requires_idtoken { responseType := some "id_token" } (by decide)).2
      rfl rfl⟩

/-- Claim C10: a cooldownPeriod supplied as 0 (or omitted — any falsy value of the
model) is replaced by the default of 5 seconds, and no constructed instance can
have a zero-length cooldown window. -/
theorem C10_falsy_cooldown_defaults_to_five (cfg : Config) (inst : Instance)
    (h : construct cfg = .ok inst) :
    ((cfg.cooldownPeriod = none ∨ cfg.cooldownPeriod = some 0) → inst.cooldownPeriod = 5)
  ∧ inst.cooldownPeriod ≠ 0 := by
  have hc : inst.cooldownPeriod = defaultedCooldown cfg.cooldownPeriod :=
    (construct_ok_fields cfg inst h).2
  constructor
  · rintro (hf | hf) <;> simp [hc, hf, defaultedCooldown]
  · rw [hc]
    cases hcc : cfg.cooldownPeriod with
    | none => simp [defaultedCooldown]
    | some n =>
      simp only [defaultedCooldown]
      split
      · simp
      · assumption

/-- Witness for C10: constructing with `cooldownPeriod = 0` yields the 5-second
default and a nonzero window. -/
theorem C10_falsy_cooldown_defaults_to_five_witness :
    construct { cfgStd with cooldownPeriod := some 0 } = .ok stdInst0
  ∧ stdInst0.cooldownPeriod = 5 ∧ stdInst0.cooldownPeriod ≠ 0 :=
  ⟨rfl,
   (C10_falsy_cooldown_defaults_to_five { cfgStd with cooldownPeriod := some 0 } stdInst0 rfl).1
      (Or.inr rfl),
   (C10_falsy_cooldown_defaults_to_five { cfgStd with cooldownPeriod := some 0 } stdInst0 rfl).2⟩

/-! ## Claims about the TrustedToken validation handler -/

/-- Claim C7 counterexample: the `try` in the validation handler wraps only
`JSON.parse`; the response text "null" parses successfully to `null`, and the
subsequent `validationResponse.valid` access throws an uncaught TypeError — no
handler is invoked at all, even though the text does not parse as the expected
structured payload and its valid flag is not true. The page-level trace of a
dispatched check receiving such a response confirms that no handler call occurs,
refuting the claimed classification of every validation response. -/
theorem C7_parsed_null_uncaught_counterexample :
    validationHandler cfgSso 1 (some "alice") ValidationParse.nullParsed
      = ValidationOutcome.crashed
  ∧ (validationHandler cfgSso 1 (some "alice") ValidationParse.nullParsed).calls = []
  ∧ (ssoRun cfgSso { inst := ssoInst0 } [.trigger 1000, .xhrLoad .nullParsed]).calls = [] := by
  decide

/-- Claim C7 (amended): in TrustedToken mode, a response text that fails to parse
invokes the failure handler with the parse-error message; a parsed payload whose
valid flag is not true invokes it with reason `invalid_session`; a valid payload
whose uid differs from a configured (truthy) subject invokes it with reason
`subject_mismatch`; a response text parsing to JSON `null`, however, throws an
uncaught TypeError at the validity check and invokes no handler at all; and among
the outcomes that do invoke the listener to completion, the absence of any
failure invocation is equivalent to all three checks passing. -/
theorem C7_trusted_token_validation_checks_amended (cfg : Config) (n : Nat)
    (subject : Option String) :
    (∀ m, validationHandler cfg n subject (.err m) = .handled [.invalidSession m n])
  ∧ (∀ uid, validationHandler cfg n subject (.ok false uid)
       = .handled [.invalidSession "invalid_session" n])
  ∧ (∀ uid s, subject = some s → s ≠ "" → uid ≠ some s →
       validationHandler cfg n subject (.ok true uid)
         = .handled [.invalidSession "subject_mismatch" n])
  ∧ validationHandler cfg n subject .nullParsed = .crashed
  ∧ (∀ r cs, validationHandler cfg n subject r = .handled cs →
       ((∀ reason k, HandlerCall.invalidSession reason k ∉ cs)
         ↔ ∃ uid, r = .ok true uid ∧ (truthyOpt subject = true → uid = subject))) := by
  refine ⟨fun m => rfl, fun uid => rfl, ?_, rfl, ?_⟩
  · intro uid s hsub hse hne
    have ht : truthyOpt subject = true := by simp [hsub, truthyOpt, hse]
    have hm : uid ≠ subject := by rw [hsub]; exact hne
    simp [validationHandler, ht, hm]
  · intro r
    cases r with
    | err m =>
      intro cs h
      injection h with h2
      subst h2
      constructor
      · intro hno
        exact absurd (List.mem_singleton.mpr rfl) (hno m n)
      · rintro ⟨uid2, huid2, -⟩
        cases huid2
    | nullParsed =>
      intro cs h
      cases h
    | ok valid uid =>
      cases valid with
      | false =>
        intro cs h
        injection h with h2
        subst h2
        constructor
        · intro hno
          exact absurd (List.mem_singleton.mpr rfl) (hno "invalid_session" n)
        · rintro ⟨uid2, huid2, -⟩
          injection huid2 with hv hu
          cases hv
      | true =>
        have h0 : validationHandler cfg n subject (.ok true uid)
            = if truthyOpt subject = true ∧ uid ≠ subject
              then ValidationOutcome.handled [HandlerCall.invalidSession "subject_mismatch" n]
              else ValidationOutcome.handled
                (if cfg.hasInitialSessionSuccessHandler = true ∧ n = 1
                 then [HandlerCall.initialSuccess] else []) := rfl
        intro cs h
        by_cases hmm : truthyOpt subject = true ∧ uid ≠ subject
        · rw [h0, if_pos hmm] at h
          injection h with h2
          subst h2
          constructor
          · intro hno
            exact absurd (List.mem_singleton.mpr rfl) (hno "subject_mismatch" n)
          · rintro ⟨uid2, huid2, himp⟩
            injection huid2 with hv hu
            exact absurd (hu.trans (himp hmm.1)) hmm.2
        · rw [h0, if_neg hmm] at h
          injection h with h2
          subst h2
          constructor
          · intro _
            refine ⟨uid, rfl, fun ht => ?_⟩
            by_contra hne
            exact hmm ⟨ht, hne⟩
          · intro _ reason k
            split <;> simp

/-- Witness for the amended C7: configured subject "alice", parsed valid payload
with uid "bob" — the failure handler is invoked with `subject_mismatch`. -/
theorem C7_trusted_token_validation_checks_amended_witness :
    validationHandler {} 1 (some "alice") (.ok true (some "bob"))
      = .handled [.invalidSession "subject_mismatch" 1] :=
  (C7_trusted_token_validation_checks_amended {} 1 (some "alice")).2.2.1 (some "bob") "alice"
    rfl (by decide) (by decide)

/-! ## Claims about the cooldown gate and the request counter -/

/-- A standards-based instance whose last dispatch was recorded at t = 1000 ms
(5-second cooldown, one dispatch counted). -/
def instAfterDispatchAt1000 : Instance :=
  { checkSessionTimestamp := some 1000, request_check_count := 1,
    clientId := some "rp-client", authId := some "Primary",
    opUrl := some "https://op/authorize", responseType := some "id_token",
    scope := some "openid", redirectUri := some calculatedRedirectUri,
    iframe := true, listenerRegistered := true }

/-- A freshly constructed standards-based instance (no dispatch yet). -/
def instFresh : Instance :=
  { clientId := some "rp-client", authId := some "Primary",
    opUrl := some "https://op/authorize", responseType := some "id_token",
    scope := some "openid", redirectUri := some calculatedRedirectUri,
    iframe := true, listenerRegistered := true }

/-- Claim C2 counterexample: with the last dispatch recorded at t = 1000 ms and a
5-second cooldown, a trigger at t = 6000 ms satisfies
`now - lastDispatchTimestamp >= cooldownPeriodMs` (6000 - 1000 = 5000 >= 5000), so
the claim predicts a dispatch; the gate's strict `<` comparison suppresses the
call instead (state unchanged, no dispatch action). -/
theorem C2_cooldown_boundary_counterexample :
    6000 - 1000 ≥ instAfterDispatchAt1000.cooldownPeriod * 1000
  ∧ instAfterDispatchAt1000.checkSessionTimestamp = some 1000
  ∧ triggerAccepts instAfterDispatchAt1000 6000 = false
  ∧ triggerSessionCheck instAfterDispatchAt1000 6000 0 = (instAfterDispatchAt1000, none) := by
  decide

/-- Claim C2 (amended): a trigger call dispatches iff there was no prior dispatch,
the recorded timestamp is 0 (falsy in JS), or `now - lastDispatchTimestamp` is
strictly greater than `cooldownPeriodMs`; a second call at most `cooldownPeriodMs`
after an accepted first call (at a nonzero time) is silently dropped — state
unchanged, no dispatch, no queuing — and `requestCheckCount` increases by exactly
1 across the two calls. -/
theorem C2_cooldown_gate_amended (inst : Instance) (n1 n2 nc1 nc2 : Nat)
    (hacc : triggerAccepts inst n1 = true) (h0 : 0 < n1)
    (hwin : n2 ≤ n1 + inst.cooldownPeriod * 1000) :
    (∀ i now, triggerAccepts i now = true ↔
       (i.checkSessionTimestamp = none ∨
        ∃ t, i.checkSessionTimestamp = some t ∧ (t = 0 ∨ t + i.cooldownPeriod * 1000 < now)))
  ∧ (triggerSessionCheck inst n1 nc1).1.request_check_count = inst.request_check_count + 1
  ∧ triggerSessionCheck ((triggerSessionCheck inst n1 nc1).1) n2 nc2
      = ((triggerSessionCheck inst n1 nc1).1, none) := by
  have hstep : (triggerSessionCheck inst n1 nc1).1
      = { inst with checkSessionTimestamp := some n1,
                    request_check_count := inst.request_check_count + 1 } := by
    unfold triggerSessionCheck
    rw [if_pos hacc]
  refine ⟨?_, ?_, ?_⟩
  · intro i now
    unfold triggerAccepts
    cases hts : i.checkSessionTimestamp with
    | none => simp
    | some t => simp [decide_eq_true_eq]
  · rw [hstep]
  · have hno : triggerAccepts ((triggerSessionCheck inst n1 nc1).1) n2 = false := by
      rw [hstep]
      unfold triggerAccepts
      rw [Bool.eq_false_iff]
      simp only [ne_eq, decide_eq_true_eq, not_or]
      constructor
      · omega
      · omega
    conv_lhs => rw [triggerSessionCheck]
    rw [hno]
    simp

/-- Witness for the amended C2: a fresh instance triggered at t = 1000 dispatches
and counts 1; a second trigger at t = 6000 (inside the 5000 ms window, boundary
included) is dropped. -/
theorem C2_cooldown_gate_amended_witness :
    (triggerSessionCheck instFresh 1000 7).1.request_check_count = 1
  ∧ triggerSessionCheck ((triggerSessionCheck instFresh 1000 7).1) 6000 8
      = ((triggerSessionCheck instFresh 1000 7).1, none) := by
  have h := C2_cooldown_gate_amended instFresh 1000 6000 7 8 (by decide) (by decide) (by decide)
  exact ⟨h.2.1, h.2.2⟩

/-- Claim C8 counterexample: on a destroyed standards-based instance, a trigger
call past the cooldown window still increments `request_check_count` (the
increment happens in the gate, before the dispatcher notices the destroyed
iframe), even though the dispatch is a no-op — so the counter does count some
trigger calls made after teardown. -/
theorem C8_post_teardown_increment_counterexample :
    (destroy instAfterDispatchAt1000).iframe = false
  ∧ (triggerSessionCheck (destroy instAfterDispatchAt1000) 999999 3).1.request_check_count
      = (destroy instAfterDispatchAt1000).request_check_count + 1
  ∧ (triggerSessionCheck (destroy instAfterDispatchAt1000) 999999 3).2 = some .noop := by
  decide

/-- Claim C8 (amended): `request_check_count` starts at 0 and is incremented by
exactly the cooldown-accepted trigger calls — suppressed calls leave it (and the
whole instance) unchanged with no dispatch, while every accepted call increments
it by 1, including accepted calls after teardown, whose dispatch is a no-op. -/
theorem C8_request_counter_amended :
    (∀ cfg i, construct cfg = Except.ok i → i.request_check_count = 0)
  ∧ (∀ i now nc, triggerAccepts i now = false → triggerSessionCheck i now nc = (i, none))
  ∧ (∀ i now nc, triggerAccepts i now = true →
       (triggerSessionCheck i now nc).1.request_check_count = i.request_check_count + 1) := by
  refine ⟨fun cfg i h => (construct_ok_fields cfg i h).1, ?_, ?_⟩
  · intro i now nc h
    unfold triggerSessionCheck
    rw [h]
    simp
  · intro i now nc h
    unfold triggerSessionCheck
    rw [if_pos h]

/-- Witness for the amended C8: the constructed instance counts 0; a suppressed
trigger (inside the window) leaves the counter at 1; an accepted trigger on a
fresh instance raises it to 1. -/
theorem C8_request_counter_amended_witness :
    stdInst0.request_check_count = 0
  ∧ triggerSessionCheck instAfterDispatchAt1000 3000 4 = (instAfterDispatchAt1000, none)
  ∧ (triggerSessionCheck instFresh 1000 4).1.request_check_count = 1 := by
  refine ⟨C8_request_counter_amended.1 cfgStd stdInst0 rfl, ?_, ?_⟩
  · exact C8_request_counter_amended.2.1 instAfterDispatchAt1000 3000 4 (by decide)
  · exact C8_request_counter_amended.2.2 instFresh 1000 4 (by decide)

/-! ## Claims about teardown -/

/-- Claim C4 counterexample: in TrustedToken mode, `destroy()` does not abort an
in-flight validation request — the XHR `load` listener survives teardown. A
trigger at t = 1000 dispatches the XHR, `destroy()` runs, and the response
(`{"valid": false}`) arriving afterwards still invokes the caller's
invalid-session handler with reason `invalid_session`. -/
theorem C4_trustedtoken_inflight_response_counterexample :
    construct cfgSso = .ok ssoInst0
  ∧ (ssoRun cfgSso { inst := ssoInst0 }
        [.trigger 1000, .destroyCall, .xhrLoad (.ok false none)]).calls
      = [.invalidSession "invalid_session" 1] :=
  ⟨rfl, by decide⟩

/-- Claim C4 (amended): in StandardsBased mode the guarantee holds — after
`destroy()` the message listener is deregistered, so no arriving message event
invokes any handler — and `destroy()` is idempotent (a second call performs the
same non-throwing steps and leaves the state unchanged). In TrustedToken mode a
validation response to a pre-destroy dispatch that arrives after `destroy()` still
invokes handlers. -/
theorem C4_destroy_deregisters_listener_amended (cfg : Config) (inst : Instance)
    (pageOrigin : String) (e : MessageEvent) :
    deliverMessage cfg (destroy inst) pageOrigin e = []
  ∧ destroy (destroy inst) = destroy inst :=
  ⟨rfl, rfl⟩

/-! ## Claims about result handling and instance correlation -/

/-- The event trace of the C6 counterexample: first check fails (nonce mismatch),
cooldown elapses, second check succeeds. -/
def firstFailThenSuccessEvents : List StdEvent :=
  [.trigger 1000 11,
   .message (MessageEvent.mk "https://rp" (RelayMsg.failed "nonce_mismatch" (some "Primary"))),
   .trigger 10000 12,
   .message (MessageEvent.mk "https://rp" (RelayMsg.succeeded (some claimsAlice) (some "Primary")))]

/-- Claim C6 counterexample: there is no `hasSucceededOnce` flag — the
first-success handler is gated on `request_check_count === 1`. When the first
check fails and the second check's success arrives (count = 2), the first success
classification of the instance invokes the claims handler but never the
first-success handler, refuting "invoked exactly once at the first success
classification". -/
theorem C6_first_success_skipped_counterexample :
    construct cfgStd = .ok stdInst0
  ∧ (stdRun cfgStd "https://rp" { inst := stdInst0 } firstFailThenSuccessEvents).calls
      = [.invalidSession "nonce_mismatch" 1, .sessionClaims claimsAlice 2]
  ∧ HandlerCall.initialSuccess
      ∉ (stdRun cfgStd "https://rp" { inst := stdInst0 } firstFailThenSuccessEvents).calls
  ∧ cfgStd.hasInitialSessionSuccessHandler = true :=
  ⟨rfl, by decide, by decide, rfl⟩

/-- Claim C6 (amended): the first-success handler is invoked on a success
classification iff it is configured and `request_check_count` equals 1 at delivery
time — both in the message listener and in the TrustedToken validation handler —
so it fires zero times when the first success arrives after a second dispatch and
can fire repeatedly while the count stays 1. -/
theorem C6_first_success_count_gating_amended (cfg : Config) (inst : Instance)
    (pageOrigin : String) (c : IdClaims) (a : String)
    (hreg : inst.listenerRegistered = true) (hauth : inst.authId = some a) :
    (HandlerCall.initialSuccess
        ∈ deliverMessage cfg inst pageOrigin
            (MessageEvent.mk pageOrigin (RelayMsg.succeeded (some c) (some a)))
      ↔ cfg.hasInitialSessionSuccessHandler = true ∧ inst.request_check_count = 1)
  ∧ (∀ n subj uid,
      HandlerCall.initialSuccess ∈ (validationHandler cfg n subj (.ok true uid)).calls
      ↔ ¬(truthyOpt subj = true ∧ uid ≠ subj)
        ∧ cfg.hasInitialSessionSuccessHandler = true ∧ n = 1) := by
  constructor
  · have hred : eventListenerHandle cfg inst pageOrigin
        (MessageEvent.mk pageOrigin (RelayMsg.succeeded (some c) (some a)))
        = if a ≠ "" ∧ inst.authId ≠ some a then []
          else if pageOrigin ≠ pageOrigin then []
          else (if cfg.hasSessionClaimsHandler = true
                then [HandlerCall.sessionClaims c inst.request_check_count] else [])
            ++ (if cfg.hasInitialSessionSuccessHandler = true ∧ inst.request_check_count = 1
                then [HandlerCall.initialSuccess] else []) := rfl
    unfold deliverMessage
    rw [if_pos hreg, hred, if_neg (fun h => h.2 hauth), if_neg (fun h => h rfl)]
    by_cases hc : cfg.hasInitialSessionSuccessHandler = true ∧ inst.request_check_count = 1
    · rw [if_pos hc]
      simp [hc, List.mem_append]
    · rw [if_neg hc]
      simp only [List.append_nil]
      constructor
      · intro hmem
        split at hmem <;> simp at hmem
      · intro h
        exact absurd h hc
  · intro n subj uid
    have hred2 : validationHandler cfg n subj (.ok true uid)
        = if truthyOpt subj = true ∧ uid ≠ subj
          then ValidationOutcome.handled [HandlerCall.invalidSession "subject_mismatch" n]
          else ValidationOutcome.handled
            (if cfg.hasInitialSessionSuccessHandler = true ∧ n = 1
             then [HandlerCall.initialSuccess] else []) := rfl
    by_cases hmm : truthyOpt subj = true ∧ uid ≠ subj
    · rw [hred2, if_pos hmm]
      simp [ValidationOutcome.calls, hmm]
    · rw [hred2, if_neg hmm]
      by_cases hc : cfg.hasInitialSessionSuccessHandler = true ∧ n = 1
      · rw [if_pos hc]
        simp [ValidationOutcome.calls, hmm, hc]
      · rw [if_neg hc]
        constructor
        · intro hmem
          simp [ValidationOutcome.calls] at hmem
        · rintro ⟨-, h2⟩
          exact absurd h2 hc

/-- Witness for the amended C6: with the handler configured and exactly one
dispatch counted, a success message does invoke the first-success handler. -/
theorem C6_first_success_count_gating_amended_witness :
    HandlerCall.initialSuccess
      ∈ deliverMessage cfgStd { instFresh with request_check_count := 1 } "https://rp"
          (MessageEvent.mk "https://rp" (RelayMsg.succeeded (some claimsAlice) (some "Primary"))) :=
  (C6_first_success_count_gating_amended cfgStd { instFresh with request_check_count := 1 }
      "https://rp" claimsAlice "Primary" rfl rfl).1.mpr ⟨rfl, rfl⟩

/-- Claim C3 counterexample: the verifier's error branch posts its failure message
without any `authId`, and the parent listener only filters messages that carry a
truthy `authId`. A response to the check dispatched for checkId "Primary"
(`state=Primary`, OP error `login_required`) therefore invokes the invalid-session
handler of the unrelated instance whose checkId is "Secondary" — two instances
with distinct checkIds do invoke each other's handlers. -/
theorem C3_error_relay_crosstalk_counterexample :
    frameVerify (some [("Primary", (42 : Int))]) (some [])
      { state := "Primary", error := some "login_required" }
      = .posted (.failed "login_required" none)
  ∧ construct cfgB = .ok instB
  ∧ instB.authId = some "Secondary"
  ∧ deliverMessage cfgB instB "https://rp"
      (MessageEvent.mk "https://rp" (RelayMsg.failed "login_required" none))
      = [.invalidSession "login_required" 0] :=
  ⟨by decide, rfl, rfl, by decide⟩

/-- Claim C3 (amended): a relay message that declares a truthy checkId different
from an instance's checkId never invokes that instance's handlers; but failure
messages from the verifier's error branch declare no checkId and are processed by
every same-origin instance, so concurrently triggered instances can invoke each
other's failure handlers (see the counterexample). -/
theorem C3_declared_checkid_mismatch_filtered_amended (cfg : Config) (inst : Instance)
    (pageOrigin : String) (e : MessageEvent) (a : String)
    (ha : e.data.authIdField = some a) (htr : a ≠ "") (hne : inst.authId ≠ some a) :
    deliverMessage cfg inst pageOrigin e = [] := by
  cases hreg : inst.listenerRegistered
  · simp [deliverMessage, hreg]
  · obtain ⟨o, d⟩ := e
    cases d with
    | failed reason aid =>
      simp only [RelayMsg.authIdField] at ha
      subst ha
      have hred : eventListenerHandle cfg inst pageOrigin
          (MessageEvent.mk o (RelayMsg.failed reason (some a)))
          = if a ≠ "" ∧ inst.authId ≠ some a then []
            else eventListenerBody cfg inst pageOrigin
              (MessageEvent.mk o (RelayMsg.failed reason (some a))) := rfl
      unfold deliverMessage
      rw [if_pos hreg, hred, if_pos ⟨htr, hne⟩]
    | succeeded cl aid =>
      simp only [RelayMsg.authIdField] at ha
      subst ha
      have hred : eventListenerHandle cfg inst pageOrigin
          (MessageEvent.mk o (RelayMsg.succeeded cl (some a)))
          = if a ≠ "" ∧ inst.authId ≠ some a then []
            else eventListenerBody cfg inst pageOrigin
              (MessageEvent.mk o (RelayMsg.succeeded cl (some a))) := rfl
      unfold deliverMessage
      rw [if_pos hreg, hred, if_pos ⟨htr, hne⟩]

/-- Witness for the amended C3: a failure message declaring checkId "Primary"
delivered to the instance with checkId "Secondary" invokes nothing. -/
theorem C3_declared_checkid_mismatch_filtered_amended_witness :
    deliverMessage cfgB instB "https://rp"
      (MessageEvent.mk "https://rp" (RelayMsg.failed "nonce_mismatch" (some "Primary"))) = [] :=
  C3_declared_checkid_mismatch_filtered_amended cfgB instB "https://rp"
    (MessageEvent.mk "https://rp" (RelayMsg.failed "nonce_mismatch" (some "Primary")))
    "Primary" rfl (by decide) (by decide)
